import Mathlib

/-!
Verification of `lutris/gui/dialogs/issue.py`: the system-info gatherer
`gather_system_info` and the issue-report dialog save flow
(`IssueReportWindow.get_issue_info`, `IssueReportWindow.on_folder_selected`).

The embedding models JSON-serializable Python values, the external probe
collaborators (`drivers`, `LINUX_SYSTEM`, `GlxInfo`, `os.environ`) as an
injectable record of probe results, the filesystem as an association list
from path to file content, and the GTK response callback as a pure state
transformer that also emits an event trace.
-/

namespace LutrisIssue

/-- JSON-serializable Python values (dicts keep insertion order, as in
Python 3.7+, so an object is an ordered association list). -/
inductive Json where
  | null : Json
  | bool (b : Bool) : Json
  | num (n : Int) : Json
  | str (s : String) : Json
  | arr (xs : List Json) : Json
  | obj (kvs : List (String × Json)) : Json

/-- `n` space characters, for `json.dump` indentation. -/
def spaces (n : Nat) : String :=
  String.mk (List.replicate n ' ')

/-- Lowercase hexadecimal digit, as produced by Python's `json` encoder. -/
def hexDigit (n : Nat) : Char :=
  if n < 10 then Char.ofNat (48 + n) else Char.ofNat (87 + n)

/-- Four lowercase hex digits, for `\uXXXX` escapes. -/
def hex4 (n : Nat) : String :=
  String.mk [hexDigit (n / 4096 % 16), hexDigit (n / 256 % 16),
             hexDigit (n / 16 % 16), hexDigit (n % 16)]

/-- Escape one character the way Python's `json.dump` does with the default
`ensure_ascii=True`: printable ASCII other than `"` and `\` passes through,
common control characters use short escapes, everything else becomes
`\uXXXX` (a surrogate pair above U+FFFF). -/
def escapeChar (c : Char) : String :=
  if c = '"' then "\\\""
  else if c = '\\' then "\\\\"
  else if c = '\n' then "\\n"
  else if c = '\r' then "\\r"
  else if c = '\t' then "\\t"
  else if c.toNat = 8 then "\\b"
  else if c.toNat = 12 then "\\f"
  else if 32 ≤ c.toNat ∧ c.toNat ≤ 126 then String.mk [c]
  else if c.toNat < 65536 then "\\u" ++ hex4 c.toNat
  else "\\u" ++ hex4 (55296 + (c.toNat - 65536) / 1024)
       ++ "\\u" ++ hex4 (56320 + (c.toNat - 65536) % 1024)

/-- JSON string literal, as serialized by Python's `json.dump`. -/
def encodeString (s : String) : String :=
  "\"" ++ String.join (s.data.map escapeChar) ++ "\""

mutual

/-- Serialize a JSON value at nesting level `lvl` exactly as Python's
`json.dump(value, file, indent=2)` does: items one per line, indented by
`2 * (lvl + 1)` spaces, item separator `","` + newline, key separator `": "`,
empty containers printed without a newline. -/
def dumpVal : Nat → Json → String
  | _, Json.null => "null"
  | _, Json.bool b => if b then "true" else "false"
  | _, Json.num n => toString n
  | _, Json.str s => encodeString s
  | _, Json.arr [] => "[]"
  | lvl, Json.arr (x :: xs) =>
      "[\n" ++ dumpArrItems (lvl + 1) x xs ++ "\n" ++ spaces (2 * lvl) ++ "]"
  | _, Json.obj [] => "\x7b\x7d"
  | lvl, Json.obj (kv :: kvs) =>
      "\x7b\n" ++ dumpObjItems (lvl + 1) kv kvs ++ "\n" ++ spaces (2 * lvl) ++ "\x7d"
termination_by _ j => sizeOf j
decreasing_by all_goals simp_wf

/-- Array items of `json.dump(..., indent=2)`, separated by `",\n"`. -/
def dumpArrItems : Nat → Json → List Json → String
  | lvl, x, [] => spaces (2 * lvl) ++ dumpVal lvl x
  | lvl, x, y :: ys =>
      spaces (2 * lvl) ++ dumpVal lvl x ++ ",\n" ++ dumpArrItems lvl y ys
termination_by _ x xs => 1 + sizeOf x + sizeOf xs
decreasing_by all_goals simp_wf; all_goals omega

/-- Object entries of `json.dump(..., indent=2)`, separated by `",\n"`,
each rendered as `"key": value`. -/
def dumpObjItems : Nat → (String × Json) → List (String × Json) → String
  | lvl, (k, v), [] => spaces (2 * lvl) ++ encodeString k ++ ": " ++ dumpVal lvl v
  | lvl, (k, v), kw :: kws =>
      spaces (2 * lvl) ++ encodeString k ++ ": " ++ dumpVal lvl v
        ++ ",\n" ++ dumpObjItems lvl kw kws
termination_by _ kv kvs => 1 + sizeOf kv + sizeOf kvs
decreasing_by all_goals simp_wf; all_goals omega

end

/-- `json.dump(value, issue_file, indent=2)` as called in
`on_folder_selected`: serialization of a top-level value. -/
def json_dump (j : Json) : String :=
  dumpVal 0 j

/-- A Python exception raised by a probe (the payload is opaque here). -/
def Err := String

instance : DecidableEq Err := inferInstanceAs (DecidableEq String)

/-- The external collaborators consumed by `gather_system_info`:
`drivers.is_nvidia`, the `drivers` probe functions, `os.environ`,
the `LINUX_SYSTEM` probe methods and `GlxInfo().as_dict()`.  Each probe
either returns a JSON-serializable value or raises (`Except.error`);
`os.environ` is an ambient mapping read without raising. -/
structure Probes where
  is_nvidia : Bool
  get_nvidia_driver_info : Except Err Json
  get_nvidia_gpu_ids : Except Err (List String)
  get_nvidia_gpu_info : String → Except Err Json
  get_gpus : Except Err (List String)
  get_gpu_info : String → Except Err Json
  environ : List (String × String)
  get_missing_libs : Except Err Json
  get_cpus : Except Err Json
  get_drives : Except Err Json
  get_ram_info : Except Err Json
  get_dist_info : Except Err Json
  glxinfo_as_dict : Except Err Json

/-- `dict(os.environ)`: the environment copied verbatim into a JSON object
with string values. -/
def envDict (p : Probes) : Json :=
  Json.obj (p.environ.map (fun kv => (kv.fst, Json.str kv.snd)))

/-- The `if drivers.is_nvidia:` block of `gather_system_info`: the two
entries it contributes (`nvidia_driver`, then `nvidia_gpus` as the list of
per-GPU-id probe results), or no entries when no NVIDIA driver is
detected. -/
def nvidia_entries (p : Probes) : Except Err (List (String × Json)) :=
  if p.is_nvidia then do
    let driverInfo ← p.get_nvidia_driver_info
    let gpuIds ← p.get_nvidia_gpu_ids
    let gpuInfos ← gpuIds.mapM p.get_nvidia_gpu_info
    pure [("nvidia_driver", driverInfo), ("nvidia_gpus", Json.arr gpuInfos)]
  else pure []

/-- `gather_system_info()` from `issue.py`: builds the `system_info` dict in
insertion order; the two NVIDIA entries are added first, only when
`drivers.is_nvidia` is true; any probe raising propagates the exception. -/
def gather_system_info (p : Probes) : Except Err (List (String × Json)) := do
  let nvidiaEntries ← nvidia_entries p
  let gpus ← p.get_gpus
  let gpuInfos ← gpus.mapM p.get_gpu_info
  let missingLibs ← p.get_missing_libs
  let cpus ← p.get_cpus
  let drives ← p.get_drives
  let ram ← p.get_ram_info
  let dist ← p.get_dist_info
  let glx ← p.glxinfo_as_dict
  pure (nvidiaEntries ++
    [("gpus", Json.arr gpuInfos),
     ("env", envDict p),
     ("missing_libs", missingLibs),
     ("cpus", cpus),
     ("drives", drives),
     ("ram", ram),
     ("dist", dist),
     ("glxinfo", glx)])

/-- `gather_system_info` wrapped as the JSON dict it returns. -/
def gather_system_info_json (p : Probes) : Except Err Json :=
  match gather_system_info p with
  | Except.error e => Except.error e
  | Except.ok entries => Except.ok (Json.obj entries)

/-- `IssueReportWindow.get_issue_info`, with the gatherer injectable (the
source calls the module-level `gather_system_info()`): builds
`{'comment': <text>, 'system': <system info>}`; a gatherer exception
propagates. -/
def get_issue_info (gather : Except Err Json) (comment : String) : Except Err Json :=
  match gather with
  | Except.error e => Except.error e
  | Except.ok sys => Except.ok (Json.obj [("comment", Json.str comment), ("system", sys)])

/-- GTK dialog response identifiers, as delivered to the `response`
callback of the folder chooser (`Gtk.ResponseType`). -/
inductive ResponseType where
  | ok : ResponseType
  | cancel : ResponseType
  | close : ResponseType
  | deleteEvent : ResponseType
  | otherResponse : ResponseType
  deriving DecidableEq

/-- The filesystem: an association list from absolute path to file
content; the head entry for a path is its current content. -/
def Fs := List (String × String)

instance : DecidableEq Fs := inferInstanceAs (DecidableEq (List (String × String)))

/-- `open(path, "w")` followed by a full write: truncates any previous
content of `path` and stores `content`. -/
def fsWrite (fs : Fs) (path content : String) : Fs :=
  (path, content) :: List.filter (fun kv => kv.fst != path) fs

/-- Reading a file: the current content of `path`, if present. -/
def fsRead : Fs → String → Option String
  | [], _ => none
  | kv :: rest, path => if kv.fst = path then some kv.snd else fsRead rest path

/-- `os.path.join(a, b)` for POSIX paths, as used for the report path. -/
def os_path_join (a b : String) : String :=
  if b.data.take 1 = ['/'] then b
  else if a = "" ∨ a.data.drop (a.data.length - 1) = ['/'] then a ++ b
  else a ++ "/" ++ b

/-- Observable events of the response handler, in the order they occur:
the gatherer being invoked, the report file being written, the folder
picker being destroyed, the notice dialog being shown, and the outer
report window being closed (never emitted by this handler). -/
inductive Ev where
  | gathered : Ev
  | wroteFile (path content : String) : Ev
  | destroyedPicker : Ev
  | shownNotice (msg : String) : Ev
  | closedWindow : Ev
  deriving DecidableEq

/-- The dialog-relevant state the handler can affect: the filesystem and
whether the outer `IssueReportWindow` is open. -/
structure DialogState where
  fs : Fs
  windowOpen : Bool
  deriving DecidableEq

/-- Result of one firing of the response callback: the state afterwards,
the events it performed in order, and the exception it let propagate, if
any. -/
structure HandlerResult where
  state : DialogState
  trace : List Ev
  exn : Option Err
  deriving DecidableEq

/-- `IssueReportWindow.on_folder_selected(dialog, response)`:
returns immediately when the response is not `OK` or when
`dialog.get_current_folder()` is unset or empty; otherwise joins the
chosen folder with `lutris-issue-report.json`, builds the issue info
(a gatherer exception propagates here, before the file is opened),
writes the JSON with `indent=2`, destroys the picker and shows the
`NoticeDialog` (modelled from the spec: a one-shot modal notice presenter
taking a message string, out of scope in the source fragment). -/
def on_folder_selected (gather : Except Err Json) (comment : String)
    (st : DialogState) (response : ResponseType) (folder : Option String) :
    HandlerResult :=
  if response ≠ ResponseType.ok then ⟨st, [], none⟩
  else
    match folder with
    | none => ⟨st, [], none⟩
    | some target_path =>
      if target_path = "" then ⟨st, [], none⟩
      else
        let issue_path := os_path_join target_path "lutris-issue-report.json"
        match get_issue_info gather comment with
        | Except.error e => ⟨st, [Ev.gathered], some e⟩
        | Except.ok issue_info =>
          let content := json_dump issue_info
          let msg := "Issue saved in " ++ issue_path
          ⟨⟨fsWrite st.fs issue_path content, st.windowOpen⟩,
           [Ev.gathered, Ev.wroteFile issue_path content,
            Ev.destroyedPicker, Ev.shownNotice msg],
           none⟩

/-- The handler with the real gatherer plugged in: `get_issue_info`
calling `gather_system_info()` over the probe collaborators. -/
def on_folder_selected_probes (p : Probes) (comment : String)
    (st : DialogState) (response : ResponseType) (folder : Option String) :
    HandlerResult :=
  on_folder_selected (gather_system_info_json p) comment st response folder

/-- Association-list lookup on a JSON object, first match wins (as in a
Python dict, whose keys are unique). -/
def jsonLookup : List (String × Json) → String → Option Json
  | [], _ => none
  | kv :: rest, k => if kv.fst = k then some kv.snd else jsonLookup rest k

/-! ### Helper lemmas -/

theorem except_bind_ok {α β : Type} {x : Except Err α} {f : α → Except Err β} {b : β}
    (h : x >>= f = Except.ok b) : ∃ a, x = Except.ok a ∧ f a = Except.ok b := by
  cases x with
  | error e => exact Except.noConfusion h
  | ok a => exact ⟨a, rfl, h⟩

theorem except_pure_ok {α : Type} {a b : α}
    (h : (pure a : Except Err α) = Except.ok b) : a = b :=
  Except.ok.inj h

/-- Shape of a successful `gather_system_info` run: the NVIDIA entries come
first exactly when `is_nvidia`, followed by the eight unconditional entries
in insertion order, with `env` holding the verbatim environment copy. -/
theorem gather_ok_shape (p : Probes) (m : List (String × Json))
    (h : gather_system_info p = Except.ok m) :
    ∃ nvDrv nvGpus gpuInfos ml c d r di gl,
      m = (if p.is_nvidia then
             [("nvidia_driver", nvDrv), ("nvidia_gpus", Json.arr nvGpus)]
           else [])
          ++ [("gpus", Json.arr gpuInfos), ("env", envDict p), ("missing_libs", ml),
              ("cpus", c), ("drives", d), ("ram", r), ("dist", di), ("glxinfo", gl)] := by
  unfold gather_system_info at h
  obtain ⟨nv, hnv, h⟩ := except_bind_ok h
  obtain ⟨gpus, hgp, h⟩ := except_bind_ok h
  obtain ⟨gpuInfos, hgi, h⟩ := except_bind_ok h
  obtain ⟨ml, hml, h⟩ := except_bind_ok h
  obtain ⟨c, hc, h⟩ := except_bind_ok h
  obtain ⟨d, hd, h⟩ := except_bind_ok h
  obtain ⟨r, hr, h⟩ := except_bind_ok h
  obtain ⟨di, hdi, h⟩ := except_bind_ok h
  obtain ⟨gl, hgl, h⟩ := except_bind_ok h
  have hm := except_pure_ok h
  unfold nvidia_entries at hnv
  cases hn : p.is_nvidia with
  | true =>
    rw [hn, if_pos rfl] at hnv
    obtain ⟨drv, hdrv, hnv⟩ := except_bind_ok hnv
    obtain ⟨ids, hids, hnv⟩ := except_bind_ok hnv
    obtain ⟨infos, hinf, hnv⟩ := except_bind_ok hnv
    have hnv2 := except_pure_ok hnv
    exact ⟨drv, infos, gpuInfos, ml, c, d, r, di, gl, by
      rw [if_pos rfl]
      rw [← hm, ← hnv2]⟩
  | false =>
    rw [hn, if_neg (by decide)] at hnv
    have hnv2 := except_pure_ok hnv
    exact ⟨Json.null, [], gpuInfos, ml, c, d, r, di, gl, by
      rw [if_neg (by decide)]
      rw [← hm, ← hnv2]⟩

/-- A successful save: the handler joins the path, builds the report,
writes its `indent=2` serialization, destroys the picker and shows the
notice, leaving the window-open flag untouched. -/
theorem on_folder_selected_ok (gather : Except Err Json) (s : Json) (comment : String)
    (st : DialogState) (f : String) (hf : ¬ f = "") (hg : gather = Except.ok s) :
    on_folder_selected gather comment st ResponseType.ok (some f) =
      ⟨⟨fsWrite st.fs (os_path_join f "lutris-issue-report.json")
          (json_dump (Json.obj [("comment", Json.str comment), ("system", s)])),
        st.windowOpen⟩,
       [Ev.gathered,
        Ev.wroteFile (os_path_join f "lutris-issue-report.json")
          (json_dump (Json.obj [("comment", Json.str comment), ("system", s)])),
        Ev.destroyedPicker,
        Ev.shownNotice ("Issue saved in " ++ os_path_join f "lutris-issue-report.json")],
       none⟩ := by
  subst hg
  simp [on_folder_selected, get_issue_info, hf]

theorem fsRead_fsWrite (fs : Fs) (path content : String) :
    fsRead (fsWrite fs path content) path = some content := by
  simp [fsRead, fsWrite]

/-! ### Concrete fixtures used by the witnesses -/

/-- A probe record where every probe succeeds and an NVIDIA driver is
present. -/
def probesOkNvidia : Probes where
  is_nvidia := true
  get_nvidia_driver_info := Except.ok (Json.str "515")
  get_nvidia_gpu_ids := Except.ok ["0"]
  get_nvidia_gpu_info := fun i => Except.ok (Json.str i)
  get_gpus := Except.ok ["card0"]
  get_gpu_info := fun g => Except.ok (Json.str g)
  environ := [("HOME", "/root")]
  get_missing_libs := Except.ok (Json.arr [])
  get_cpus := Except.ok (Json.arr [])
  get_drives := Except.ok (Json.arr [])
  get_ram_info := Except.ok (Json.obj [])
  get_dist_info := Except.ok (Json.str "debian")
  glxinfo_as_dict := Except.ok (Json.obj [])

/-- The system-info dict `gather_system_info` produces on
`probesOkNvidia`. -/
def gatherOkNvidiaResult : List (String × Json) :=
  [("nvidia_driver", Json.str "515"),
   ("nvidia_gpus", Json.arr [Json.str "0"]),
   ("gpus", Json.arr [Json.str "card0"]),
   ("env", Json.obj [("HOME", Json.str "/root")]),
   ("missing_libs", Json.arr []),
   ("cpus", Json.arr []),
   ("drives", Json.arr []),
   ("ram", Json.obj []),
   ("dist", Json.str "debian"),
   ("glxinfo", Json.obj [])]

/-- `probesOkNvidia` with the CPU probe raising. -/
def probesFailing : Probes :=
  { probesOkNvidia with get_cpus := Except.error "boom" }

/-- A stubbed gatherer result, as in the spec's save test. -/
def sysStub : Json := Json.obj [("gpus", Json.arr [])]

/-- An initial state: empty filesystem, report window open. -/
def st0 : DialogState := ⟨[], true⟩

/-! ### Claim theorems -/

/-- Claim C1: for every combination of probe return values, the mapping
returned by `gather_system_info()` has exactly the keys
`gpus, env, missing_libs, cpus, drives, ram, dist, glxinfo`, preceded by
`nvidia_driver, nvidia_gpus` if and only if `drivers.is_nvidia` is true
(stated as an equality of the key list, which pins the key set exactly). -/
theorem gather_system_info_keys (p : Probes) (m : List (String × Json))
    (h : gather_system_info p = Except.ok m) :
    m.map Prod.fst
      = (if p.is_nvidia then ["nvidia_driver", "nvidia_gpus"] else [])
        ++ ["gpus", "env", "missing_libs", "cpus", "drives", "ram", "dist", "glxinfo"] := by
  obtain ⟨nvDrv, nvGpus, gpuInfos, ml, c, d, r, di, gl, hm⟩ := gather_ok_shape p m h
  subst hm
  cases hn : p.is_nvidia <;> simp

/-- Witness for C1, at a concrete probe record with an NVIDIA driver
present: the gatherer succeeds and its key list is as claimed. -/
theorem gather_system_info_keys_witness :
    gather_system_info probesOkNvidia = Except.ok gatherOkNvidiaResult ∧
    gatherOkNvidiaResult.map Prod.fst
      = (if probesOkNvidia.is_nvidia then ["nvidia_driver", "nvidia_gpus"] else [])
        ++ ["gpus", "env", "missing_libs", "cpus", "drives", "ram", "dist", "glxinfo"] :=
  ⟨rfl, gather_system_info_keys probesOkNvidia gatherOkNvidiaResult rfl⟩

/-- Claim C2: whenever the folder picker is confirmed with a non-empty
folder `f` and comment `t` while the (stubbed) gatherer returns `s`, the
file `f/lutris-issue-report.json` holds exactly the `indent=2` JSON
serialization of `{"comment": t, "system": s}` — the canonical text whose
parse is that object. -/
theorem save_writes_issue_report (s : Json) (t : String) (st : DialogState) (f : String)
    (hf : ¬ f = "") :
    fsRead (on_folder_selected (Except.ok s) t st ResponseType.ok (some f)).state.fs
        (os_path_join f "lutris-issue-report.json")
      = some (json_dump (Json.obj [("comment", Json.str t), ("system", s)])) := by
  rw [on_folder_selected_ok (Except.ok s) s t st f hf rfl]
  exact fsRead_fsWrite st.fs _ _

/-- Witness for C2, with comment `"test comment"` and stubbed system info
`{"gpus": []}`: the file content is the expected pretty-printed JSON
document. -/
theorem save_writes_issue_report_witness :
    fsRead (on_folder_selected (Except.ok sysStub) "test comment" st0 ResponseType.ok
        (some "/tmp")).state.fs (os_path_join "/tmp" "lutris-issue-report.json")
      = some (json_dump (Json.obj [("comment", Json.str "test comment"), ("system", sysStub)]))
    ∧ os_path_join "/tmp" "lutris-issue-report.json" = "/tmp/lutris-issue-report.json"
    ∧ json_dump (Json.obj [("comment", Json.str "test comment"), ("system", sysStub)])
      = "\x7b\n  \"comment\": \"test comment\",\n  \"system\": \x7b\n    \"gpus\": []\n  \x7d\n\x7d" := by
  refine ⟨save_writes_issue_report sysStub "test comment" st0 "/tmp" (by decide), by decide, ?_⟩
  simp only [sysStub, json_dump, dumpVal, dumpObjItems, encodeString, escapeChar, spaces]
  rfl

/-- Claim C3: in every successful run of `gather_system_info()`, the value
stored under the `env` key is the full process environment mapping, copied
verbatim (`dict(os.environ)`). -/
theorem gather_env_verbatim (p : Probes) (m : List (String × Json))
    (h : gather_system_info p = Except.ok m) :
    jsonLookup m "env" = some (envDict p) := by
  obtain ⟨nvDrv, nvGpus, gpuInfos, ml, c, d, r, di, gl, hm⟩ := gather_ok_shape p m h
  subst hm
  cases hn : p.is_nvidia <;> simp [jsonLookup]

/-- Witness for C3 at the concrete probe record. -/
theorem gather_env_verbatim_witness :
    jsonLookup gatherOkNvidiaResult "env" = some (envDict probesOkNvidia)
    ∧ envDict probesOkNvidia = Json.obj [("HOME", Json.str "/root")] :=
  ⟨gather_env_verbatim probesOkNvidia gatherOkNvidiaResult rfl, rfl⟩

/-- Claim C4: an OK response with an unset (`None`) or empty folder path is
a silent no-op: state unchanged (so no file is created), no events, no
exception. -/
theorem empty_folder_silent_noop (gather : Except Err Json) (comment : String)
    (st : DialogState) (folder : Option String)
    (h : folder = none ∨ folder = some "") :
    on_folder_selected gather comment st ResponseType.ok folder = ⟨st, [], none⟩ := by
  rcases h with h | h <;> subst h <;> simp [on_folder_selected]

/-- Witness for C4, confirming with an empty folder path. -/
theorem empty_folder_silent_noop_witness :
    on_folder_selected (Except.ok sysStub) "test comment" st0 ResponseType.ok (some "")
      = ⟨st0, [], none⟩ :=
  empty_folder_silent_noop (Except.ok sysStub) "test comment" st0 (some "") (Or.inr rfl)

/-- Claim C5: any response other than OK (cancel, close, delete-event, …)
takes no action: state unchanged, no file written, no events, no
exception. -/
theorem non_ok_response_noop (gather : Except Err Json) (comment : String)
    (st : DialogState) (response : ResponseType) (folder : Option String)
    (h : response ≠ ResponseType.ok) :
    on_folder_selected gather comment st response folder = ⟨st, [], none⟩ := by
  simp [on_folder_selected, h]

/-- Witness for C5, cancelling the folder picker (the picker's Cancel
button is wired to the CLOSE response). -/
theorem non_ok_response_noop_witness :
    on_folder_selected (Except.ok sysStub) "test comment" st0 ResponseType.close
        (some "/tmp") = ⟨st0, [], none⟩ :=
  non_ok_response_noop (Except.ok sysStub) "test comment" st0 ResponseType.close
    (some "/tmp") (by decide)

/-- Claim C6: when a probe raises during the save action's call of
`gather_system_info()`, the error propagates uncaught out of the handler
and the state is unchanged — no report file, not even a partial one, is
created, because the report dict is built before the output file is
opened. -/
theorem probe_error_propagates_no_file (p : Probes) (comment : String) (st : DialogState)
    (f : String) (e : Err) (hf : ¬ f = "") (he : gather_system_info p = Except.error e) :
    on_folder_selected_probes p comment st ResponseType.ok (some f)
      = ⟨st, [Ev.gathered], some e⟩ := by
  simp [on_folder_selected_probes, on_folder_selected, gather_system_info_json,
        get_issue_info, he, hf]

/-- Witness for C6, with the CPU probe raising. -/
theorem probe_error_propagates_no_file_witness :
    on_folder_selected_probes probesFailing "test comment" st0 ResponseType.ok (some "/tmp")
      = ⟨st0, [Ev.gathered], some "boom"⟩ :=
  probe_error_propagates_no_file probesFailing "test comment" st0 "/tmp" "boom"
    (by decide) rfl

/-- Claim C7: two successful saves to the same folder leave
`<folder>/lutris-issue-report.json` containing exactly the serialization of
the second report — the write overwrites the file at that fixed path. -/
theorem second_save_overwrites (s1 s2 : Json) (c1 c2 : String) (st : DialogState)
    (f : String) (hf : ¬ f = "") :
    fsRead (on_folder_selected (Except.ok s1) c1 st ResponseType.ok (some f)).state.fs
        (os_path_join f "lutris-issue-report.json")
      = some (json_dump (Json.obj [("comment", Json.str c1), ("system", s1)]))
    ∧ fsRead (on_folder_selected (Except.ok s2) c2
          (on_folder_selected (Except.ok s1) c1 st ResponseType.ok (some f)).state
          ResponseType.ok (some f)).state.fs
        (os_path_join f "lutris-issue-report.json")
      = some (json_dump (Json.obj [("comment", Json.str c2), ("system", s2)])) := by
  constructor
  · rw [on_folder_selected_ok (Except.ok s1) s1 c1 st f hf rfl]
    exact fsRead_fsWrite st.fs _ _
  · rw [on_folder_selected_ok (Except.ok s1) s1 c1 st f hf rfl,
        on_folder_selected_ok (Except.ok s2) s2 c2 _ f hf rfl]
    exact fsRead_fsWrite _ _ _

/-- Witness for C7: after two saves with different comments and system
info, the file holds the second report. -/
theorem second_save_overwrites_witness :
    fsRead (on_folder_selected (Except.ok sysStub) "second"
        (on_folder_selected (Except.ok (Json.obj [])) "first" st0 ResponseType.ok
          (some "/tmp")).state
        ResponseType.ok (some "/tmp")).state.fs
      (os_path_join "/tmp" "lutris-issue-report.json")
    = some (json_dump (Json.obj [("comment", Json.str "second"), ("system", sysStub)])) :=
  (second_save_overwrites (Json.obj []) sysStub "first" "second" st0 "/tmp" (by decide)).2

/-- Claim C8: after a successful save, no exception escapes, the folder
picker is destroyed, a one-shot notice naming the saved path is shown, the
outer report window's open flag is unchanged and the handler never closes
the window. -/
theorem save_success_destroys_picker_shows_notice (gather : Except Err Json) (s : Json)
    (comment : String) (st : DialogState) (f : String)
    (hf : ¬ f = "") (hg : gather = Except.ok s) :
    (on_folder_selected gather comment st ResponseType.ok (some f)).exn = none
    ∧ Ev.destroyedPicker ∈ (on_folder_selected gather comment st ResponseType.ok (some f)).trace
    ∧ Ev.shownNotice ("Issue saved in " ++ os_path_join f "lutris-issue-report.json")
        ∈ (on_folder_selected gather comment st ResponseType.ok (some f)).trace
    ∧ (on_folder_selected gather comment st ResponseType.ok (some f)).state.windowOpen
        = st.windowOpen
    ∧ Ev.closedWindow ∉ (on_folder_selected gather comment st ResponseType.ok (some f)).trace := by
  rw [on_folder_selected_ok gather s comment st f hf hg]
  exact ⟨rfl, by simp, by simp, rfl, by simp⟩

/-- Witness for C8 at concrete inputs. -/
theorem save_success_destroys_picker_shows_notice_witness :
    (on_folder_selected (Except.ok sysStub) "test comment" st0 ResponseType.ok
        (some "/tmp")).exn = none
    ∧ (on_folder_selected (Except.ok sysStub) "test comment" st0 ResponseType.ok
        (some "/tmp")).state.windowOpen = st0.windowOpen :=
  ⟨(save_success_destroys_picker_shows_notice (Except.ok sysStub) sysStub "test comment"
      st0 "/tmp" (by decide) rfl).1,
   (save_success_destroys_picker_shows_notice (Except.ok sysStub) sysStub "test comment"
      st0 "/tmp" (by decide) rfl).2.2.2.1⟩

/-- Claim C9 (amended): after folder confirmation the order is — gatherer
invoked synchronously, then the JSON file written, then the folder-picker
dialog destroyed, then the confirmation notice shown; no dialog closes
after the notice and the outer window's open flag is unchanged. -/
theorem save_flow_event_order (gather : Except Err Json) (s : Json) (comment : String)
    (st : DialogState) (f : String) (hf : ¬ f = "") (hg : gather = Except.ok s) :
    (on_folder_selected gather comment st ResponseType.ok (some f)).trace
      = [Ev.gathered,
         Ev.wroteFile (os_path_join f "lutris-issue-report.json")
           (json_dump (Json.obj [("comment", Json.str comment), ("system", s)])),
         Ev.destroyedPicker,
         Ev.shownNotice ("Issue saved in " ++ os_path_join f "lutris-issue-report.json")]
    ∧ Ev.closedWindow ∉ (on_folder_selected gather comment st ResponseType.ok (some f)).trace
    ∧ (on_folder_selected gather comment st ResponseType.ok (some f)).state.windowOpen
        = st.windowOpen := by
  rw [on_folder_selected_ok gather s comment st f hf hg]
  exact ⟨rfl, by simp, rfl⟩

/-- Witness for the amended C9 at concrete inputs: the four events in
order. -/
theorem save_flow_event_order_witness :
    (on_folder_selected (Except.ok sysStub) "test comment" st0 ResponseType.ok
        (some "/tmp")).trace
      = [Ev.gathered,
         Ev.wroteFile (os_path_join "/tmp" "lutris-issue-report.json")
           (json_dump (Json.obj [("comment", Json.str "test comment"), ("system", sysStub)])),
         Ev.destroyedPicker,
         Ev.shownNotice ("Issue saved in " ++ os_path_join "/tmp" "lutris-issue-report.json")] :=
  (save_flow_event_order (Except.ok sysStub) sysStub "test comment" st0 "/tmp"
    (by decide) rfl).1

/-- Counterexample to C9 as stated: in a concrete successful save, no step
of the handler's trace closes the dialog — in the code `dialog.destroy()`
runs before `NoticeDialog`, and nothing closes after the notice is shown,
so "notice shown, then the dialog closes" is false. -/
theorem save_flow_no_close_after_notice :
    ¬ ∃ l, (on_folder_selected (Except.ok sysStub) "test comment" st0 ResponseType.ok
        (some "/tmp")).trace.get? l = some Ev.closedWindow := by
  rintro ⟨l, hl⟩
  rw [on_folder_selected_ok (Except.ok sysStub) sysStub "test comment" st0 "/tmp"
      (by decide) rfl] at hl
  have hm := List.get?_mem hl
  simp at hm

/-- Claim C10: with a non-OK response, or with OK but an unset/empty
folder, the handler is a pure no-op (so the picker is not destroyed); and
whenever the picker is destroyed, the trace is exactly the successful-save
sequence, with the file write before the destruction. -/
theorem picker_destroyed_only_on_success (gather : Except Err Json) (comment : String)
    (st : DialogState) (response : ResponseType) (folder : Option String) :
    ((response ≠ ResponseType.ok ∨ folder = none ∨ folder = some "") →
        on_folder_selected gather comment st response folder = ⟨st, [], none⟩)
    ∧ (Ev.destroyedPicker ∈ (on_folder_selected gather comment st response folder).trace →
        ∃ pth c, (on_folder_selected gather comment st response folder).trace
          = [Ev.gathered, Ev.wroteFile pth c, Ev.destroyedPicker,
             Ev.shownNotice ("Issue saved in " ++ pth)]) := by
  constructor
  · intro h
    by_cases hr : response = ResponseType.ok
    · subst hr
      rcases h with h | h | h
      · exact absurd rfl h
      · subst h; simp [on_folder_selected]
      · subst h; simp [on_folder_selected]
    · simp [on_folder_selected, hr]
  · intro h
    by_cases hr : response = ResponseType.ok
    · subst hr
      cases folder with
      | none => simp [on_folder_selected] at h
      | some f =>
        by_cases hf : f = ""
        · subst hf
          simp [on_folder_selected] at h
        · cases hg : get_issue_info gather comment with
          | error e => simp [on_folder_selected, hf, hg] at h
          | ok info =>
            exact ⟨os_path_join f "lutris-issue-report.json", json_dump info, by
              simp [on_folder_selected, hf, hg]⟩
    · simp [on_folder_selected, hr] at h

/-- Witness for C10: a non-OK response leaves everything untouched. -/
theorem picker_destroyed_only_on_success_witness :
    on_folder_selected (Except.ok sysStub) "test comment" st0 ResponseType.close
        (some "/tmp") = ⟨st0, [], none⟩ :=
  (picker_destroyed_only_on_success (Except.ok sysStub) "test comment" st0
    ResponseType.close (some "/tmp")).1 (Or.inl (by decide))

end LutrisIssue
